import Mathlib

/-!
Verification of the thin-film interference simulation.

The development shallowly embeds the computational core of the repository:

* `LightBeam` — the waveform path generator of
  `src/routes/thinfilm/LightBeam.svelte` (the `generateWavePath` function and
  the derived values it reads).
* `ThinFilmPage` — the derived beam-geometry and phase values of the first
  (full) variant of `src/routes/thinfilm/+page.svelte` (lines 1–143).
* `ThinFilmPage2` — the corresponding derived values of the second simulation
  variant bundled in the same file (lines 569–641).

JavaScript numbers are modelled as real numbers.  `Math.asin` is total in
JavaScript but returns `NaN` outside `[-1, 1]`; where that distinction
matters (`mathAsin`) the result type is `Option ℝ` with `none` standing for
`NaN`, and `NaN`-propagation through arithmetic is modelled with `Option.map`.
-/

noncomputable section

namespace PaulPhysics

/-- The `waveStart` prop of `LightBeam.svelte` (line 15): the string
`'start'` or `'end'`, determining where the wave's phase starts from. -/
inductive WaveStart where
  | fromStart
  | fromEnd
deriving DecidableEq

namespace LightBeam

/-- Embeds line 19 of `LightBeam.svelte`: `const amplitude = 5`. -/
def amplitude : ℝ := 5

/-- Embeds line 22 of `LightBeam.svelte`:
`Math.atan2(y2 - y1, x2 - x1)`.  `Math.atan2 y x` equals the complex
argument of `x + y·i`. -/
def beamAngle (x1 y1 x2 y2 : ℝ) : ℝ :=
  Complex.arg { re := x2 - x1, im := y2 - y1 }

/-- Embeds line 23 of `LightBeam.svelte`:
`Math.sqrt((x2 - x1) ** 2 + (y2 - y1) ** 2)`. -/
def beamLength (x1 y1 x2 y2 : ℝ) : ℝ :=
  Real.sqrt ((x2 - x1) ^ 2 + (y2 - y1) ^ 2)

/-- Embeds line 26 of `LightBeam.svelte`:
`(wavelengthNm / refractiveIndex) * nmToPixels`. -/
def wavelengthPx (wavelengthNm refractiveIndex nmToPixels : ℝ) : ℝ :=
  wavelengthNm / refractiveIndex * nmToPixels

/-- Embeds line 32 of `LightBeam.svelte`: `Math.ceil(length / 5)`.
The length is a nonnegative real, so `Nat.ceil` agrees with `Math.ceil`. -/
def numPoints (len : ℝ) : ℕ := Nat.ceil (len / 5)

/-- Embeds line 37 of `LightBeam.svelte`:
`waveStart === 'end' ? 1 - t : t`. -/
def tPhase (ws : WaveStart) (t : ℝ) : ℝ :=
  match ws with
  | .fromEnd => 1 - t
  | .fromStart => t

/-- Embeds line 45 of `LightBeam.svelte`:
`waveStart === 'end' ? -1 : 1`. -/
def phaseMultiplier (ws : WaveStart) : ℝ :=
  match ws with
  | .fromEnd => -1
  | .fromStart => 1

/-- Embeds lines 46–47 of `LightBeam.svelte`:
`phaseMultiplier * Math.sin((tPhase * length * 2 * Math.PI) / wavelengthPx) * amplitude`. -/
def waveOffset (len wl : ℝ) (ws : WaveStart) (t : ℝ) : ℝ :=
  phaseMultiplier ws * Real.sin (tPhase ws t * len * 2 * Real.pi / wl) * amplitude

/-- Embeds the body of the loop in lines 35–51 of `LightBeam.svelte` for
index `i`: the interpolated along-beam point plus the perpendicular offset
`(-sin angle · waveOffset, cos angle · waveOffset)`. -/
def samplePoint (x1 y1 x2 y2 wl : ℝ) (ws : WaveStart) (numPts : ℕ) (i : ℕ) : ℝ × ℝ :=
  (x1 + (x2 - x1) * ((i : ℝ) / (numPts : ℝ)) +
      -Real.sin (beamAngle x1 y1 x2 y2) *
        waveOffset (beamLength x1 y1 x2 y2) wl ws ((i : ℝ) / (numPts : ℝ)),
    y1 + (y2 - y1) * ((i : ℝ) / (numPts : ℝ)) +
      Real.cos (beamAngle x1 y1 x2 y2) *
        waveOffset (beamLength x1 y1 x2 y2) wl ws ((i : ℝ) / (numPts : ℝ)))

/-- Embeds `generateWavePath` of `LightBeam.svelte` (lines 31–55): the list
of sampled points for `i = 0, …, numPoints`. -/
def generateWavePath (x1 y1 x2 y2 wl : ℝ) (ws : WaveStart) : List (ℝ × ℝ) :=
  (List.range (numPoints (beamLength x1 y1 x2 y2) + 1)).map
    (samplePoint x1 y1 x2 y2 wl ws (numPoints (beamLength x1 y1 x2 y2)))

/-- The waveform path of one `LightBeam` instantiation, as a function of the
props the caller passes.  The component's `$props()` destructuring
(lines 2–16 of `LightBeam.svelte`) declares no `phaseShift` prop, so a
`phaseShift` attribute supplied at a call site (as the page does at lines
357 and 374) is dropped by Svelte; it is modelled here as an argument the
body never reads. -/
def lightBeamWavePath (x1 y1 x2 y2 wavelengthNm refractiveIndex nmToPixels : ℝ)
    (waveStart : WaveStart) (phaseShift : ℝ) : List (ℝ × ℝ) :=
  generateWavePath x1 y1 x2 y2 (wavelengthPx wavelengthNm refractiveIndex nmToPixels) waveStart

end LightBeam

/-- Embeds line 62 of `+page.svelte`, `(airN * Math.sin(angleRad)) / filmN`,
with the incidence angle and the two refractive indices as parameters (the
page instantiates `n1 := airN`, `n2 := filmN`); this is the Snell-law sine
`n1·sin θ / n2`. -/
def sinRefracted (θ n1 n2 : ℝ) : ℝ := n1 * Real.sin θ / n2

/-- Embeds line 63 of `+page.svelte`, `Math.asin(sinRefracted)`, over the
real arcsine, with angle and indices as parameters. -/
def refractionAngle (θ n1 n2 : ℝ) : ℝ := Real.arcsin (sinRefracted θ n1 n2)

/-- JavaScript `Math.asin`: the arcsine on `[-1, 1]`, `NaN` (here `none`)
outside it. -/
def mathAsin (x : ℝ) : Option ℝ :=
  if -1 ≤ x ∧ x ≤ 1 then some (Real.arcsin x) else none

/-- Line 63 of `+page.svelte` under JavaScript `Math.asin` semantics:
`none` models the `NaN` produced when the Snell sine leaves `[-1, 1]`. -/
def refractionAngleJs (θ n1 n2 : ℝ) : Option ℝ := mathAsin (sinRefracted θ n1 n2)

/-- Line 69 of `+page.svelte`,
`refractedStartX + Math.tan(refractedAngleRad) * filmThickness`, under
JavaScript semantics: a `NaN` (`none`) refraction angle propagates into the
coordinate. -/
def refractedEndXJs (startX : ℝ) (angleOpt : Option ℝ) (thickness : ℝ) : Option ℝ :=
  angleOpt.map (fun a => startX + Real.tan a * thickness)

/-- Embeds lines 126–128 of `+page.svelte`,
`-refractedPhaseAtEnd + (filmN < substrateN ? Math.PI : 0)`, with the
incoming phase and the two indices as parameters (the page instantiates
them with `refractedPhaseAtEnd`, `filmN` and `substrateN`). -/
def reflectionPhaseShift (incomingPhase nIncident nNext : ℝ) : ℝ :=
  -incomingPhase + (if nIncident < nNext then Real.pi else 0)

namespace ThinFilmPage

/-- Line 11 of `+page.svelte`. -/
def wavelengthNm : ℝ := 500

/-- Line 12 of `+page.svelte`. -/
def airN : ℝ := 1

/-- Line 13 of `+page.svelte`. -/
def substrateN : ℝ := 1.5

/-- Line 16 of `+page.svelte`. -/
def nmToPixels : ℝ := 0.3

/-- One entry of the `filmMaterials` array (lines 22–26 of `+page.svelte`). -/
structure FilmMaterial where
  label : String
  n : ℝ

/-- Lines 22–26 of `+page.svelte`. -/
def filmMaterials : List FilmMaterial :=
  [⟨"Test", 3⟩, ⟨"MgF2", 1.38⟩, ⟨"SiO2", 1.65⟩]

/-- The state the user can change: `angleDegrees`, `filmThicknessNm` and
`selectedFilmIndex` (lines 19, 27, 29 of `+page.svelte`).  Every `$derived`
value of the page is embedded as a function of this record. -/
structure SimParams where
  angleDegrees : ℝ
  filmThicknessNm : ℝ
  selectedFilmIndex : Fin 3

/-- Line 33 of `+page.svelte`. -/
def svgWidth : ℝ := 800

/-- Line 35 of `+page.svelte`: `svgWidth / 2`. -/
def centerX : ℝ := svgWidth / 2

/-- Line 38 of `+page.svelte`. -/
def filmTop : ℝ := 200

/-- Line 39 of `+page.svelte`: `filmTop + filmThicknessNm * nmToPixels`. -/
def filmBottom (p : SimParams) : ℝ := filmTop + p.filmThicknessNm * nmToPixels

/-- Line 40 of `+page.svelte`: `filmBottom`. -/
def substrateTop (p : SimParams) : ℝ := filmBottom p

/-- Line 41 of `+page.svelte`. -/
def substrateBottom : ℝ := 400

/-- Line 44 of `+page.svelte`. -/
def beamLength : ℝ := 150

/-- Line 45 of `+page.svelte`. -/
def beamStartY : ℝ := 50

/-- Line 48 of `+page.svelte`: `(angleDegrees * Math.PI) / 180`. -/
def angleRad (p : SimParams) : ℝ := p.angleDegrees * Real.pi / 180

/-- Line 49 of `+page.svelte`: `filmMaterials[selectedFilmIndex].n`. -/
def filmN (p : SimParams) : ℝ := (filmMaterials.get p.selectedFilmIndex).n

/-- Line 52 of `+page.svelte`:
`centerX + Math.tan(angleRad) * (filmTop - beamStartY)`. -/
def incidentEndX (p : SimParams) : ℝ :=
  centerX + Real.tan (angleRad p) * (filmTop - beamStartY)

/-- Line 53 of `+page.svelte`: `filmTop`. -/
def incidentEndY (_p : SimParams) : ℝ := filmTop

/-- Line 56 of `+page.svelte`: `incidentEndX`. -/
def reflectedStartX (p : SimParams) : ℝ := incidentEndX p

/-- Line 57 of `+page.svelte`: `filmTop`. -/
def reflectedStartY (_p : SimParams) : ℝ := filmTop

/-- Line 58 of `+page.svelte`:
`reflectedStartX + Math.tan(angleRad) * beamLength`. -/
def reflectedEndX (p : SimParams) : ℝ :=
  reflectedStartX p + Real.tan (angleRad p) * beamLength

/-- Line 59 of `+page.svelte`: `reflectedStartY - beamLength`. -/
def reflectedEndY (p : SimParams) : ℝ := reflectedStartY p - beamLength

/-- Line 63 of `+page.svelte`: the refraction angle instantiated with the
page's indices. -/
def refractedAngleRad (p : SimParams) : ℝ :=
  refractionAngle (angleRad p) airN (filmN p)

/-- Line 66 of `+page.svelte`: `incidentEndX`. -/
def refractedStartX (p : SimParams) : ℝ := incidentEndX p

/-- Line 67 of `+page.svelte`: `filmTop`. -/
def refractedStartY (_p : SimParams) : ℝ := filmTop

/-- Line 68 of `+page.svelte`: `filmBottom - filmTop`. -/
def filmThickness (p : SimParams) : ℝ := filmBottom p - filmTop

/-- Line 69 of `+page.svelte`:
`refractedStartX + Math.tan(refractedAngleRad) * filmThickness`. -/
def refractedEndX (p : SimParams) : ℝ :=
  refractedStartX p + Real.tan (refractedAngleRad p) * filmThickness p

/-- Line 70 of `+page.svelte`: `filmBottom`. -/
def refractedEndY (p : SimParams) : ℝ := filmBottom p

/-- Line 73 of `+page.svelte`: `refractedEndX`. -/
def substrateReflectedStartX (p : SimParams) : ℝ := refractedEndX p

/-- Line 74 of `+page.svelte`: `filmBottom`. -/
def substrateReflectedStartY (p : SimParams) : ℝ := filmBottom p

/-- Lines 75–77 of `+page.svelte`:
`substrateReflectedStartX + Math.tan(refractedAngleRad) * filmThickness`. -/
def substrateReflectedEndX (p : SimParams) : ℝ :=
  substrateReflectedStartX p + Real.tan (refractedAngleRad p) * filmThickness p

/-- Line 78 of `+page.svelte`: `filmTop`. -/
def substrateReflectedEndY (_p : SimParams) : ℝ := filmTop

/-- Line 81 of `+page.svelte`: `substrateReflectedEndX`. -/
def finalTransmissionStartX (p : SimParams) : ℝ := substrateReflectedEndX p

/-- Line 82 of `+page.svelte`: `filmTop`. -/
def finalTransmissionStartY (_p : SimParams) : ℝ := filmTop

/-- Line 83 of `+page.svelte`:
`finalTransmissionStartX + Math.tan(angleRad) * beamLength`. -/
def finalTransmissionEndX (p : SimParams) : ℝ :=
  finalTransmissionStartX p + Real.tan (angleRad p) * beamLength

/-- Line 84 of `+page.svelte`: `finalTransmissionStartY - beamLength`. -/
def finalTransmissionEndY (p : SimParams) : ℝ := finalTransmissionStartY p - beamLength

/-- Line 88 of `+page.svelte`: `(wavelengthNm / filmN) * nmToPixels`. -/
def filmWavelengthPx (p : SimParams) : ℝ := wavelengthNm / filmN p * nmToPixels

/-- Lines 115–119 of `+page.svelte`: the length of the refracted segment. -/
def refractedPathLength (p : SimParams) : ℝ :=
  Real.sqrt ((refractedEndX p - refractedStartX p) ^ 2 +
    (refractedEndY p - refractedStartY p) ^ 2)

/-- Line 120 of `+page.svelte`:
`(refractedPathLength * 2 * Math.PI) / filmWavelengthPx`. -/
def refractedPhaseAtEnd (p : SimParams) : ℝ :=
  refractedPathLength p * 2 * Real.pi / filmWavelengthPx p

/-- Lines 126–128 of `+page.svelte`: the general `reflectionPhaseShift`
instantiated at the substrate interface. -/
def substrateReflectionPhaseShift (p : SimParams) : ℝ :=
  reflectionPhaseShift (refractedPhaseAtEnd p) (filmN p) substrateN

end ThinFilmPage

namespace ThinFilmPage2

/-- Line 600 of `+page.svelte` (second variant). -/
def filmTop : ℝ := 200

/-- Line 601 of `+page.svelte` (second variant): a constant, not derived
from the thickness. -/
def filmBottom : ℝ := 250

/-- Line 603 of `+page.svelte` (second variant). -/
def substrateBottom : ℝ := 400

/-- Line 630 of `+page.svelte` (second variant): `filmBottom - filmTop`. -/
def filmThickness : ℝ := filmBottom - filmTop

/-- The second variant's user state (lines 589, 591): its material table has
only two entries. -/
structure SimParams where
  angleDegrees : ℝ
  selectedFilmIndex : Fin 2

/-- Line 610 of `+page.svelte` (second variant). -/
def angleRad (p : SimParams) : ℝ := p.angleDegrees * Real.pi / 180

/-- Lines 585–588 of `+page.svelte` (second variant). -/
def filmMaterials : List ThinFilmPage.FilmMaterial :=
  [⟨"MgF2", 1.38⟩, ⟨"SiO2", 1.65⟩]

/-- Line 611 of `+page.svelte` (second variant). -/
def filmN (p : SimParams) : ℝ := (filmMaterials.get p.selectedFilmIndex).n

/-- Line 625 of `+page.svelte` (second variant). -/
def refractedAngleRad (p : SimParams) : ℝ :=
  refractionAngle (angleRad p) ThinFilmPage.airN (filmN p)

/-- Line 614 of `+page.svelte` (second variant). -/
def incidentEndX (p : SimParams) : ℝ :=
  ThinFilmPage.centerX + Real.tan (angleRad p) * (filmTop - 50)

/-- Line 631 of `+page.svelte` (second variant):
`refractedStartX + Math.tan(refractedAngleRad) * filmThickness` with
`refractedStartX = incidentEndX`. -/
def refractedEndX (p : SimParams) : ℝ :=
  incidentEndX p + Real.tan (refractedAngleRad p) * filmThickness

/-- Line 632 of `+page.svelte` (second variant): `filmBottom`. -/
def refractedEndY : ℝ := filmBottom

/-- Line 635 of `+page.svelte` (second variant): `refractedEndX`. -/
def substrateReflectedStartX (p : SimParams) : ℝ := refractedEndX p

/-- Line 636 of `+page.svelte` (second variant): `substrateBottom` — not
`filmBottom`, although the refracted beam ends at `filmBottom`. -/
def substrateReflectedStartY : ℝ := substrateBottom

/-- Lines 637–639 of `+page.svelte` (second variant). -/
def substrateReflectedEndX (p : SimParams) : ℝ :=
  substrateReflectedStartX p + Real.tan (refractedAngleRad p) * filmThickness

/-- Line 640 of `+page.svelte` (second variant): `filmTop`. -/
def substrateReflectedEndY : ℝ := filmTop

end ThinFilmPage2

/-- C2: for every incoming phase `p` and index pair, the reflection phase
shift is `−p + π` when the next medium's index is higher than the incident
one, and `−p + 0` otherwise. -/
theorem reflectionPhaseShift_flip (p ni nn : ℝ) :
    (nn > ni → reflectionPhaseShift p ni nn = -p + Real.pi) ∧
    (nn ≤ ni → reflectionPhaseShift p ni nn = -p + 0) := by
  constructor
  · intro h
    rw [reflectionPhaseShift, if_pos h]
  · intro h
    rw [reflectionPhaseShift, if_neg (not_lt.mpr h)]

/-- Witness for `reflectionPhaseShift_flip`: the film-to-substrate
reflection (1.38 → 1.5) gains exactly π, the reverse (1.65 → 1.5) gains 0. -/
theorem reflectionPhaseShift_flip_witness :
    ((1.5:ℝ) > 1.38 ∧ reflectionPhaseShift 2 1.38 1.5 = -2 + Real.pi) ∧
    ((1.5:ℝ) ≤ 1.65 ∧ reflectionPhaseShift 2 1.65 1.5 = -2 + 0) :=
  ⟨⟨by norm_num, (reflectionPhaseShift_flip 2 1.38 1.5).1 (by norm_num)⟩,
   ⟨by norm_num, (reflectionPhaseShift_flip 2 1.65 1.5).2 (by norm_num)⟩⟩

/-- C3 (counterexample): at the slider maximum `filmThicknessNm = 700` the
derived film bottom is 410, which is strictly below the substrate bottom
400, so the invariant `filmBottomY ≤ substrateBottomY` fails. -/
theorem filmBottom_exceeds_substrateBottom_at_max :
    ThinFilmPage.filmBottom ⟨15, 700, 0⟩ = 410 ∧
    ThinFilmPage.substrateBottom = 400 ∧
    ¬ ThinFilmPage.filmBottom ⟨15, 700, 0⟩ ≤ ThinFilmPage.substrateBottom := by
  norm_num [ThinFilmPage.filmBottom, ThinFilmPage.filmTop, ThinFilmPage.nmToPixels,
    ThinFilmPage.substrateBottom]

/-- C3 (amended): for every thickness in `[10, 700]` the film bottom equals
`filmTop + thickness · nmToPixels` and lies strictly below the film top in
screen coordinates (`filmTopY < filmBottomY`); the containment
`filmBottomY ≤ substrateBottomY` holds exactly for thicknesses up to
`2000/3 ≈ 666.7` nm, so it holds at the minimum 10 but not at the maximum
700. -/
theorem layer_boundaries_amended (p : ThinFilmPage.SimParams)
    (h1 : 10 ≤ p.filmThicknessNm) (h2 : p.filmThicknessNm ≤ 700) :
    ThinFilmPage.filmBottom p =
      ThinFilmPage.filmTop + p.filmThicknessNm * ThinFilmPage.nmToPixels ∧
    ThinFilmPage.filmTop < ThinFilmPage.filmBottom p ∧
    (ThinFilmPage.filmBottom p ≤ ThinFilmPage.substrateBottom ↔
      p.filmThicknessNm ≤ 2000 / 3) := by
  refine ⟨rfl, ?_, ?_⟩
  · simp only [ThinFilmPage.filmBottom, ThinFilmPage.filmTop, ThinFilmPage.nmToPixels]
    nlinarith
  · simp only [ThinFilmPage.filmBottom, ThinFilmPage.filmTop, ThinFilmPage.nmToPixels,
      ThinFilmPage.substrateBottom]
    constructor <;> intro h <;> nlinarith

/-- Witness for `layer_boundaries_amended` at the minimum thickness 10. -/
theorem layer_boundaries_amended_witness :
    (10:ℝ) ≤ 10 ∧ (10:ℝ) ≤ 700 ∧
    (ThinFilmPage.filmBottom ⟨15, 10, 0⟩ =
      ThinFilmPage.filmTop + (10:ℝ) * ThinFilmPage.nmToPixels ∧
    ThinFilmPage.filmTop < ThinFilmPage.filmBottom ⟨15, 10, 0⟩ ∧
    (ThinFilmPage.filmBottom ⟨15, 10, 0⟩ ≤ ThinFilmPage.substrateBottom ↔
      (10:ℝ) ≤ 2000 / 3)) :=
  ⟨le_refl 10, by norm_num,
    layer_boundaries_amended ⟨15, 10, 0⟩ (le_refl 10) (by norm_num)⟩

/-- C6: in the first simulation variant the substrate-reflected beam starts
exactly at the refracted beam's end on the film bottom, ends on the film/air
boundary `filmTop`, and spans `tan(refractedAngle) · filmThickness`
horizontally; in the second variant the start ordinate is the constant
`substrateBottom = 400` rather than the refracted beam's end ordinate
`filmBottom = 250`, contradicting this geometry. -/
theorem substrateReflected_geometry :
    (∀ p : ThinFilmPage.SimParams,
      ThinFilmPage.substrateReflectedStartX p = ThinFilmPage.refractedEndX p ∧
      ThinFilmPage.substrateReflectedStartY p = ThinFilmPage.refractedEndY p ∧
      ThinFilmPage.substrateReflectedEndY p = ThinFilmPage.filmTop ∧
      ThinFilmPage.substrateReflectedEndX p - ThinFilmPage.substrateReflectedStartX p =
        Real.tan (ThinFilmPage.refractedAngleRad p) * ThinFilmPage.filmThickness p) ∧
    ThinFilmPage2.substrateReflectedStartY = 400 ∧
    ThinFilmPage2.refractedEndY = 250 ∧
    ThinFilmPage2.substrateReflectedStartY ≠ ThinFilmPage2.refractedEndY := by
  refine ⟨fun p => ⟨rfl, rfl, rfl, ?_⟩, rfl, rfl, ?_⟩
  · rw [ThinFilmPage.substrateReflectedEndX]
    ring
  · norm_num [ThinFilmPage2.substrateReflectedStartY, ThinFilmPage2.refractedEndY,
      ThinFilmPage2.substrateBottom, ThinFilmPage2.filmBottom]

/-- C7: with `waveStart = 'end'` the wave offset at normalized position `t`
is the negation of the `waveStart = 'start'` offset at the mirrored
position `1 − t`, for the same length and wavelength. -/
theorem waveOffset_fromEnd_mirror (len wl t : ℝ) :
    LightBeam.waveOffset len wl WaveStart.fromEnd t =
      -(LightBeam.waveOffset len wl WaveStart.fromStart (1 - t)) := by
  simp only [LightBeam.waveOffset, LightBeam.tPhase, LightBeam.phaseMultiplier]
  ring

/-- C9: the waveform path of a `LightBeam` instantiation does not depend on
the `phaseShift` attribute the caller passes, because the component
declares no such prop. -/
theorem lightBeamWavePath_phaseShift_irrelevant
    (x1 y1 x2 y2 wN rI nPx : ℝ) (ws : WaveStart) (q1 q2 : ℝ) :
    LightBeam.lightBeamWavePath x1 y1 x2 y2 wN rI nPx ws q1 =
      LightBeam.lightBeamWavePath x1 y1 x2 y2 wN rI nPx ws q2 := rfl

/-- C10: two parameter records with the same incidence angle produce the
same incident-beam and reflected-beam endpoints, whatever their film
thickness and selected film material. -/
theorem incident_reflected_frame (p q : ThinFilmPage.SimParams)
    (h : p.angleDegrees = q.angleDegrees) :
    ThinFilmPage.incidentEndX p = ThinFilmPage.incidentEndX q ∧
    ThinFilmPage.incidentEndY p = ThinFilmPage.incidentEndY q ∧
    ThinFilmPage.reflectedStartX p = ThinFilmPage.reflectedStartX q ∧
    ThinFilmPage.reflectedStartY p = ThinFilmPage.reflectedStartY q ∧
    ThinFilmPage.reflectedEndX p = ThinFilmPage.reflectedEndX q ∧
    ThinFilmPage.reflectedEndY p = ThinFilmPage.reflectedEndY q := by
  have ha : ThinFilmPage.angleRad p = ThinFilmPage.angleRad q := by
    rw [ThinFilmPage.angleRad, ThinFilmPage.angleRad, h]
  simp [ThinFilmPage.incidentEndX, ThinFilmPage.incidentEndY,
    ThinFilmPage.reflectedStartX, ThinFilmPage.reflectedStartY,
    ThinFilmPage.reflectedEndX, ThinFilmPage.reflectedEndY, ha]

/-- Witness for `incident_reflected_frame`: angle 15° with thickness 10 /
material 0 versus thickness 700 / material 2. -/
theorem incident_reflected_frame_witness :
    (ThinFilmPage.SimParams.mk 15 10 0).angleDegrees =
      (ThinFilmPage.SimParams.mk 15 700 2).angleDegrees ∧
    (ThinFilmPage.incidentEndX ⟨15, 10, 0⟩ = ThinFilmPage.incidentEndX ⟨15, 700, 2⟩ ∧
    ThinFilmPage.incidentEndY ⟨15, 10, 0⟩ = ThinFilmPage.incidentEndY ⟨15, 700, 2⟩ ∧
    ThinFilmPage.reflectedStartX ⟨15, 10, 0⟩ = ThinFilmPage.reflectedStartX ⟨15, 700, 2⟩ ∧
    ThinFilmPage.reflectedStartY ⟨15, 10, 0⟩ = ThinFilmPage.reflectedStartY ⟨15, 700, 2⟩ ∧
    ThinFilmPage.reflectedEndX ⟨15, 10, 0⟩ = ThinFilmPage.reflectedEndX ⟨15, 700, 2⟩ ∧
    ThinFilmPage.reflectedEndY ⟨15, 10, 0⟩ = ThinFilmPage.reflectedEndY ⟨15, 700, 2⟩) :=
  ⟨rfl, incident_reflected_frame ⟨15, 10, 0⟩ ⟨15, 700, 2⟩ rfl⟩

/-- C1: for incidence angles in `[0°, 30°]` (radians `[0, π/6]`) and film
indices in `[1.3, 2]` with air index 1, the computed refraction angle
satisfies Snell's law `sin θ' · n = sin θ · 1` exactly and lies in
`[0, π/2)`. -/
theorem refractionAngle_snell (θ n : ℝ)
    (h0 : 0 ≤ θ) (h30 : θ ≤ Real.pi / 6) (hn1 : 1.3 ≤ n) (hn2 : n ≤ 2) :
    Real.sin (refractionAngle θ 1 n) * n = Real.sin θ * 1 ∧
    0 ≤ refractionAngle θ 1 n ∧ refractionAngle θ 1 n < Real.pi / 2 := by
  have hn0 : (0:ℝ) < n := by linarith
  have hθπ : θ ≤ Real.pi := by
    have := Real.pi_pos
    linarith
  have hs0 : 0 ≤ Real.sin θ := Real.sin_nonneg_of_nonneg_of_le_pi h0 hθπ
  have hs1 : Real.sin θ ≤ 1 := Real.sin_le_one θ
  have hx : sinRefracted θ 1 n = Real.sin θ / n := by
    rw [sinRefracted, one_mul]
  have hx0 : 0 ≤ sinRefracted θ 1 n := by
    rw [hx]
    positivity
  have hxlt : sinRefracted θ 1 n < 1 := by
    rw [hx, div_lt_one hn0]
    linarith
  refine ⟨?_, ?_, ?_⟩
  · rw [refractionAngle, Real.sin_arcsin (by linarith) hxlt.le, hx,
      div_mul_cancel₀ _ hn0.ne', mul_one]
  · exact Real.arcsin_nonneg.mpr hx0
  · exact Real.arcsin_lt_pi_div_two.mpr hxlt

/-- Witness for `refractionAngle_snell` at normal incidence into `n = 1.5`. -/
theorem refractionAngle_snell_witness :
    (0:ℝ) ≤ 0 ∧ (0:ℝ) ≤ Real.pi / 6 ∧ (1.3:ℝ) ≤ 1.5 ∧ (1.5:ℝ) ≤ 2 ∧
    (Real.sin (refractionAngle 0 1 1.5) * 1.5 = Real.sin 0 * 1 ∧
     0 ≤ refractionAngle 0 1 1.5 ∧ refractionAngle 0 1 1.5 < Real.pi / 2) := by
  have hπ : (0:ℝ) ≤ Real.pi / 6 := by positivity
  exact ⟨le_refl 0, hπ, by norm_num, by norm_num,
    refractionAngle_snell 0 1.5 (le_refl 0) hπ (by norm_num) (by norm_num)⟩

/-- C4 (counterexample): at the total-internal-reflection input
`θ = π/2, n1 = 3, n2 = 1` the Snell sine is 3 > 1, and the code — which
applies the arcsine unconditionally — yields a `NaN` (`none`) refraction
angle that propagates into the refracted-segment coordinate instead of a
detected, surfaced domain error. -/
theorem refraction_nan_at_tir :
    sinRefracted (Real.pi / 2) 3 1 = 3 ∧ (1:ℝ) < 3 ∧
    refractionAngleJs (Real.pi / 2) 3 1 = none ∧
    refractedEndXJs 400 (refractionAngleJs (Real.pi / 2) 3 1) 90 = none := by
  have hs : sinRefracted (Real.pi / 2) 3 1 = 3 := by
    rw [sinRefracted, Real.sin_pi_div_two]
    norm_num
  have hjs : refractionAngleJs (Real.pi / 2) 3 1 = none := by
    rw [refractionAngleJs, hs, mathAsin, if_neg (by norm_num)]
  refine ⟨hs, by norm_num, hjs, ?_⟩
  rw [refractedEndXJs, hjs]
  rfl

/-- C4 (amended): the code never checks for total internal reflection, but
for every input reachable from the UI — air index 1 and a film index of at
least 1.38, the smallest entry of the material table — the Snell sine lies
in `[-1, 1]`, so the arcsine is always within its domain and no `NaN`
coordinate is ever produced. -/
theorem refractionAngleJs_total_in_ui (θ n : ℝ) (hn : 1.38 ≤ n) :
    refractionAngleJs θ 1 n = some (refractionAngle θ 1 n) := by
  have hn0 : (0:ℝ) < n := by linarith
  have h1 : -1 ≤ sinRefracted θ 1 n := by
    rw [sinRefracted, one_mul, le_div_iff hn0]
    nlinarith [Real.neg_one_le_sin θ]
  have h2 : sinRefracted θ 1 n ≤ 1 := by
    rw [sinRefracted, one_mul, div_le_one hn0]
    linarith [Real.sin_le_one θ]
  rw [refractionAngleJs, mathAsin, if_pos ⟨h1, h2⟩]
  rfl

/-- Witness for `refractionAngleJs_total_in_ui` at `θ = 0`, `n = 1.38`. -/
theorem refractionAngleJs_total_in_ui_witness :
    (1.38:ℝ) ≤ 1.38 ∧
    refractionAngleJs 0 1 1.38 = some (refractionAngle 0 1 1.38) :=
  ⟨le_refl _, refractionAngleJs_total_in_ui 0 1.38 (le_refl _)⟩

/-- A `List.range (n + 1)` starts with 0. -/
lemma range_succ_cons (n : ℕ) : List.range (n + 1) = 0 :: List.range' 1 n := by
  rw [List.range_eq_range']
  rfl

/-- C5 (counterexample): the wave offset the generator computes at `t = 0`
is 0 for every beam, whereas the claimed formula with a starting phase of
`π/2` — the value a caller could pass through the undeclared `phaseShift`
prop — demands `amplitude · sin(π/2) = 5`; the generator has no
starting-phase input. -/
theorem waveOffset_ignores_startingPhase :
    0 < LightBeam.beamLength 0 0 3 4 ∧
    ¬ (LightBeam.waveOffset (LightBeam.beamLength 0 0 3 4) 10 WaveStart.fromStart 0 =
        LightBeam.amplitude *
          Real.sin (2 * Real.pi * (0 * LightBeam.beamLength 0 0 3 4) / 10 + Real.pi / 2)) := by
  constructor
  · rw [LightBeam.beamLength, Real.sqrt_pos]
    norm_num
  · have h1 : LightBeam.waveOffset (LightBeam.beamLength 0 0 3 4) 10 WaveStart.fromStart 0 = 0 := by
      simp [LightBeam.waveOffset, LightBeam.tPhase, LightBeam.phaseMultiplier]
    have h2 : LightBeam.amplitude *
        Real.sin (2 * Real.pi * (0 * LightBeam.beamLength 0 0 3 4) / 10 + Real.pi / 2) = 5 := by
      simp [LightBeam.amplitude, Real.sin_pi_div_two]
    intro h
    rw [h1, h2] at h
    norm_num at h

/-- C5 (amended): for a beam of positive length and positive pixel
wavelength, the generator emits exactly `⌈L/5⌉ + 1` points, the first point
with `waveStart = 'start'` is the beam's start point, and the offset at
normalized position `t` is `amplitude · sin(2π·(t·L)/wavelengthPx)` — the
claimed formula with the starting phase identically 0, since the generator
takes no starting-phase input. -/
theorem generateWavePath_spec (x1 y1 x2 y2 wl : ℝ)
    (hL : 0 < LightBeam.beamLength x1 y1 x2 y2) (hwl : 0 < wl) :
    (LightBeam.generateWavePath x1 y1 x2 y2 wl WaveStart.fromStart).length =
      Nat.ceil (LightBeam.beamLength x1 y1 x2 y2 / 5) + 1 ∧
    (LightBeam.generateWavePath x1 y1 x2 y2 wl WaveStart.fromStart).head? =
      some (x1, y1) ∧
    (∀ t : ℝ, LightBeam.waveOffset (LightBeam.beamLength x1 y1 x2 y2) wl
        WaveStart.fromStart t =
      LightBeam.amplitude *
        Real.sin (2 * Real.pi * (t * LightBeam.beamLength x1 y1 x2 y2) / wl)) := by
  refine ⟨?_, ?_, ?_⟩
  · simp [LightBeam.generateWavePath, LightBeam.numPoints]
  · rw [LightBeam.generateWavePath, range_succ_cons, List.map_cons, List.head?_cons]
    simp [LightBeam.samplePoint, LightBeam.waveOffset, LightBeam.tPhase,
      LightBeam.phaseMultiplier]
  · intro t
    simp only [LightBeam.waveOffset, LightBeam.tPhase, LightBeam.phaseMultiplier,
      LightBeam.amplitude]
    rw [show t * LightBeam.beamLength x1 y1 x2 y2 * 2 * Real.pi / wl =
        2 * Real.pi * (t * LightBeam.beamLength x1 y1 x2 y2) / wl from by ring]
    ring

/-- Witness for `generateWavePath_spec` on the beam from `(0,0)` to `(3,4)`
(length 5) with an 10-pixel wavelength. -/
theorem generateWavePath_spec_witness :
    0 < LightBeam.beamLength 0 0 3 4 ∧ (0:ℝ) < 10 ∧
    ((LightBeam.generateWavePath 0 0 3 4 10 WaveStart.fromStart).length =
      Nat.ceil (LightBeam.beamLength 0 0 3 4 / 5) + 1 ∧
    (LightBeam.generateWavePath 0 0 3 4 10 WaveStart.fromStart).head? =
      some (0, 0) ∧
    (∀ t : ℝ, LightBeam.waveOffset (LightBeam.beamLength 0 0 3 4) 10
        WaveStart.fromStart t =
      LightBeam.amplitude *
        Real.sin (2 * Real.pi * (t * LightBeam.beamLength 0 0 3 4) / 10))) := by
  have hL : 0 < LightBeam.beamLength 0 0 3 4 := by
    rw [LightBeam.beamLength, Real.sqrt_pos]
    norm_num
  exact ⟨hL, by norm_num, generateWavePath_spec 0 0 3 4 10 hL (by norm_num)⟩

/-- Every film material of the page has index at least 1.38. -/
lemma filmN_ge (p : ThinFilmPage.SimParams) : 1.38 ≤ ThinFilmPage.filmN p := by
  rw [ThinFilmPage.filmN]
  rcases p with ⟨a, t, i⟩
  fin_cases i <;> norm_num [ThinFilmPage.filmMaterials]

/-- C8: for incidence angles in the allowed range `[0°, 30°]`, re-applying
Snell's law from the film back into air at the computed refraction angle
recovers the original incidence angle, and the transmitted segment's
displacement is `(tan θ · beamLength, −beamLength)`. -/
theorem transmission_roundtrip (p : ThinFilmPage.SimParams)
    (h0 : 0 ≤ p.angleDegrees) (h30 : p.angleDegrees ≤ 30) :
    refractionAngle (ThinFilmPage.refractedAngleRad p) (ThinFilmPage.filmN p)
        ThinFilmPage.airN = ThinFilmPage.angleRad p ∧
    ThinFilmPage.finalTransmissionEndX p - ThinFilmPage.finalTransmissionStartX p =
      Real.tan (ThinFilmPage.angleRad p) * ThinFilmPage.beamLength ∧
    ThinFilmPage.finalTransmissionEndY p - ThinFilmPage.finalTransmissionStartY p =
      -ThinFilmPage.beamLength := by
  have hπ := Real.pi_pos
  have hθ0 : 0 ≤ ThinFilmPage.angleRad p := by
    rw [ThinFilmPage.angleRad]
    have := mul_nonneg h0 hπ.le
    linarith
  have hθ6 : ThinFilmPage.angleRad p ≤ Real.pi / 6 := by
    rw [ThinFilmPage.angleRad]
    have := mul_le_mul_of_nonneg_right h30 hπ.le
    linarith
  have hθ2 : ThinFilmPage.angleRad p ≤ Real.pi / 2 := by linarith
  have hfn : (1.38:ℝ) ≤ ThinFilmPage.filmN p := filmN_ge p
  have hfn0 : (0:ℝ) < ThinFilmPage.filmN p := by linarith
  have hs0 : 0 ≤ Real.sin (ThinFilmPage.angleRad p) :=
    Real.sin_nonneg_of_nonneg_of_le_pi hθ0 (by linarith)
  have hs1 : Real.sin (ThinFilmPage.angleRad p) ≤ 1 := Real.sin_le_one _
  refine ⟨?_, ?_, ?_⟩
  · rw [ThinFilmPage.refractedAngleRad]
    simp only [refractionAngle, sinRefracted, ThinFilmPage.airN, one_mul, div_one]
    rw [Real.sin_arcsin
        (by have := div_nonneg hs0 hfn0.le; linarith)
        (by rw [div_le_one hfn0]; linarith),
      show ThinFilmPage.filmN p *
          (Real.sin (ThinFilmPage.angleRad p) / ThinFilmPage.filmN p) =
          Real.sin (ThinFilmPage.angleRad p) from by field_simp]
    exact Real.arcsin_sin (by linarith) hθ2
  · rw [ThinFilmPage.finalTransmissionEndX]
    ring
  · rw [ThinFilmPage.finalTransmissionEndY]
    ring

/-- Witness for `transmission_roundtrip` at 15°, 300 nm, MgF2. -/
theorem transmission_roundtrip_witness :
    (0:ℝ) ≤ 15 ∧ (15:ℝ) ≤ 30 ∧
    (refractionAngle (ThinFilmPage.refractedAngleRad ⟨15, 300, 1⟩)
        (ThinFilmPage.filmN ⟨15, 300, 1⟩) ThinFilmPage.airN =
      ThinFilmPage.angleRad ⟨15, 300, 1⟩ ∧
    ThinFilmPage.finalTransmissionEndX ⟨15, 300, 1⟩ -
        ThinFilmPage.finalTransmissionStartX ⟨15, 300, 1⟩ =
      Real.tan (ThinFilmPage.angleRad ⟨15, 300, 1⟩) * ThinFilmPage.beamLength ∧
    ThinFilmPage.finalTransmissionEndY ⟨15, 300, 1⟩ -
        ThinFilmPage.finalTransmissionStartY ⟨15, 300, 1⟩ =
      -ThinFilmPage.beamLength) :=
  ⟨by norm_num, by norm_num,
    transmission_roundtrip ⟨15, 300, 1⟩ (by norm_num) (by norm_num)⟩

end PaulPhysics

end
